import Mathlib

/-!
Verification of the MongoDB lifecycle/multiplexing layer of the
`mongodb_crud_restapi` repository.

The development shallowly embeds the database-manager code of
`src/app/db/mongo.py` (class `MongoDBManager`) and the record-creation
service of `src/app/services/records.py`.  Stateful Python code becomes
explicit state passing over a `MState` record (the manager's in-memory
caches) and a `World` record (the MongoDB server as the manager observes
it); datetimes become `Int` seconds; fallible store calls are driven by
boolean failure knobs on the `World` and surface as `Except MErr`.
Every definition follows the cited Python source line by line.
-/

namespace MongoCrud

/-- Settings consumed by the database layer (src/app/core/config.py plus the
`expiration_cleanup_interval_seconds` attribute that `mongo.py` reads from the
settings object; the tests inject it via a fake settings object). -/
structure Settings where
  mongodb_collection : String
  timeseries_time_field : String
  timeseries_meta_field : Option String
  api_tokens_collection : String
  expiration_cleanup_interval_seconds : Int
  deriving DecidableEq, Repr

/-- Default values of the relevant settings fields. -/
def defaultSettings : Settings :=
  { mongodb_collection := "measurements"
    timeseries_time_field := "timestamp"
    timeseries_meta_field := some "metadata"
    api_tokens_collection := "api_tokens"
    expiration_cleanup_interval_seconds := 3600 }

/-- The error taxonomy of the database layer:
`connectionError` is `MongoConnectionError` (src/app/db/mongo.py line 39),
`pyMongoError` is an uncaught raw `pymongo.errors.PyMongoError`,
`collectionInvalid` is `pymongo.errors.CollectionInvalid`
("collection already exists"). -/
inductive MErr where
  | connectionError
  | pyMongoError
  | collectionInvalid
  deriving DecidableEq, Repr

/-! ## Association-list helpers

Python `dict` operations used by the manager: `get`, `[...] = ...`, and
`pop(..., None)`.  Iteration order of the dictionaries never matters for
the dictionaries modelled as association lists here (they are only read
through `lookupA`). -/

/-- `d.get(k)` on a Python dict modelled as an association list. -/
def lookupA {α : Type} (m : List (String × α)) (k : String) : Option α :=
  (m.find? (fun p => p.1 == k)).map (·.2)

/-- `d.pop(k, None)`'s effect on the dict: remove the key if present. -/
def eraseA {α : Type} (m : List (String × α)) (k : String) : List (String × α) :=
  m.filter (fun p => p.1 != k)

/-- `d[k] = v` on a Python dict. -/
def insertA {α : Type} (m : List (String × α)) (k : String) (v : α) : List (String × α) :=
  eraseA m k ++ [(k, v)]

theorem lookupA_insertA {α : Type} (m : List (String × α)) (k : String) (v : α) :
    lookupA (insertA m k v) k = some v := by
  induction m with
  | nil => simp [lookupA, insertA, eraseA, List.find?]
  | cons a m ih =>
    simp only [insertA, eraseA, List.filter] at ih ⊢
    by_cases h : a.1 = k
    · simp only [h, bne_self_eq_false]
      exact ih
    · have hb : (a.1 != k) = true := by simp [bne, h]
      simp only [hb, List.cons_append, lookupA, List.find?] at ih ⊢
      have hb2 : (a.1 == k) = false := by simp [h]
      simpa [hb2, lookupA] using ih

theorem lookupA_eraseA {α : Type} (m : List (String × α)) (k : String) :
    lookupA (eraseA m k) k = none := by
  induction m with
  | nil => simp [lookupA, eraseA, List.find?]
  | cons a m ih =>
    simp only [eraseA, List.filter] at ih ⊢
    by_cases h : a.1 = k
    · simp [h, bne]; exact ih
    · have hb : (a.1 != k) = true := by simp [bne, h]
      have hb2 : (a.1 == k) = false := by simp [h]
      simp only [hb, lookupA, List.find?, hb2] at ih ⊢
      exact ih

/-! ## Documents -/

/-- A token document as the manager sees it
(`{_id, token_hash, expires_at?}`; the remaining fields are irrelevant to
cache and sweep behaviour).  `_id` values are unique per collection in
MongoDB. -/
structure TokenDoc where
  id : Nat
  token_hash : String
  expires_at : Option Int
  deriving DecidableEq, Repr

/-- A measurement document, as far as the sweeper is concerned. -/
structure MeasureDoc where
  id : Nat
  expires_at : Option Int
  deriving DecidableEq, Repr

/-- `{"expires_at": {"$lte": now}}`: a `$lte` filter matches a document only
when the field is present and below the bound. -/
def expiredLe (now : Int) (e : Option Int) : Bool :=
  match e with
  | some t => t ≤ now
  | none => false

/-! ## The server as the manager observes it -/

/-- One database on the server, together with failure knobs that decide the
outcome of each store operation the manager may issue against it. -/
structure DatabaseW where
  /-- collection names present (`list_collection_names`) -/
  collections : List String
  /-- contents of its API-token collection -/
  tokenDocs : List TokenDoc
  /-- contents of its measurement collection -/
  tsDocs : List MeasureDoc
  /-- `list_collection_names` raises `PyMongoError` -/
  listCollectionsFails : Bool
  /-- `create_collection` (time-series) raises `CollectionInvalid`: another
  caller created the collection between the existence check and the create -/
  createTsRaisesExists : Bool
  /-- `create_collection` (token collection) raises `CollectionInvalid` -/
  createTokenRaisesExists : Bool
  /-- `_ensure_indexes` fails (`index_information`/create/drop raises
  `PyMongoError`, wrapped into `MongoConnectionError`) -/
  indexEnsureFails : Bool
  /-- `create_index` on the token collection raises `PyMongoError`
  (wrapped into `MongoConnectionError`) -/
  tokenIndexFails : Bool
  /-- `find_one({"token_hash": ...})` raises `PyMongoError` -/
  tokenFindOneFails : Bool
  /-- the token sweep's `find`/`to_list` of expired documents raises -/
  tokenFindExpiredFails : Bool
  /-- the token sweep's `delete_many` raises -/
  tokenDeleteFails : Bool
  /-- the measurement sweep's `delete_many` raises -/
  tsDeleteFails : Bool

/-- The server: a total map from database names to database contents
(a name never touched behaves as an empty database, matching MongoDB's
implicit-creation semantics), the catalog returned by
`list_database_names`, and a knob for that call failing. -/
structure World where
  databases : String → DatabaseW
  dbNames : List String
  listDatabaseNamesFails : Bool

/-- Point update of one database of the server. -/
def updateDb (w : World) (n : String) (f : DatabaseW → DatabaseW) : World :=
  { w with databases := fun m => if m = n then f (w.databases n) else w.databases m }

theorem updateDb_apply (w : World) (n m : String) (f : DatabaseW → DatabaseW) :
    (updateDb w n f).databases m = if m = n then f (w.databases n) else w.databases m := rfl

/-! ## Manager state

The process-wide caches of `MongoDBManager.__init__`
(src/app/db/mongo.py lines 46-53).  Collection and database handles carry
no information beyond the database name, so the handle caches are name
lists and the handle a function returns is the database name. -/

structure MState where
  /-- whether `self._client` is set -/
  clientSet : Bool
  /-- `self._database_cache` (keys; the values are just handles) -/
  database_cache : List String
  /-- `self._collection_cache` (measurement collections) -/
  collection_cache : List String
  /-- `self._token_collection_cache` -/
  token_collection_cache : List String
  /-- `self._token_hash_cache` : token_hash → database name -/
  token_hash_cache : List (String × String)
  /-- `self._timeseries_cleanup_tracker` : database name → last sweep time -/
  timeseries_cleanup_tracker : List (String × Int)
  /-- `self._token_cleanup_tracker` -/
  token_cleanup_tracker : List (String × Int)
  deriving DecidableEq, Repr

/-- The state built by `MongoDBManager.__init__`. -/
def initialState : MState :=
  { clientSet := false
    database_cache := []
    collection_cache := []
    token_collection_cache := []
    token_hash_cache := []
    timeseries_cleanup_tracker := []
    token_cleanup_tracker := [] }

/-! ## connect / close (src/app/db/mongo.py lines 63-101 and 549-559) -/

/-- Result of `connect()`: the state after the call, the exception raised
(if any), and whether a client was constructed and the liveness probe
issued (false when the early `if self._client is not None: return` fired). -/
structure ConnectRes where
  s : MState
  error : Option MErr
  attempted : Bool
  deriving DecidableEq, Repr

/-- `MongoDBManager.connect` (lines 63-101), with `motor`/`pymongo`
available.  `probeOk` is the outcome of the `server_info()` liveness probe
(`false` = `ServerSelectionTimeoutError`).  Note the source order: the
client is assigned to `self._client` first and only then probed; the
`except` clause raises `MongoConnectionError` without unsetting
`self._client`.  The caches are cleared (lines 96-101) only after a
successful probe. -/
def connect (probeOk : Bool) (s : MState) : ConnectRes :=
  if s.clientSet then
    { s := s, error := none, attempted := false }
  else
    let s1 : MState := { s with clientSet := true }
    if probeOk then
      { s := { s1 with
                database_cache := []
                collection_cache := []
                token_collection_cache := []
                token_hash_cache := []
                timeseries_cleanup_tracker := []
                token_cleanup_tracker := [] }
        error := none
        attempted := true }
    else
      { s := s1, error := some .connectionError, attempted := true }

/-- `MongoDBManager.close` (lines 549-559): releases the client and resets
the four handle/location caches when a client is present; the two cleanup
trackers are not touched. -/
def close (s : MState) : MState :=
  if s.clientSet then
    { s with
      clientSet := false
      database_cache := []
      collection_cache := []
      token_collection_cache := []
      token_hash_cache := [] }
  else s

/-! ## create_record (src/app/services/records.py lines 138-169) -/

/-- The validated `TimeSeriesRecordCreate` payload
(src/app/models/time_series.py).  After validation `timestamp` is always
present (it has a default factory) and `expires_in_seconds` is `None` or a
non-negative integer. -/
structure RecordCreatePayload where
  source : String
  component : Option String
  payload : String
  metadata : List (String × String)
  timestamp : Int
  expires_in_seconds : Option Int
  deriving DecidableEq, Repr

/-- The document handed to `insert_one`.  `model_dump(by_alias=True)`
serialises `source` under its alias `acronym` and keeps the
`expires_in_seconds` key (that field has no serialization alias). -/
structure StoredDoc where
  acronym : String
  component : Option String
  payload : String
  metadata : List (String × String)
  timestamp : Int
  expires_in_seconds : Option Int
  expires_at : Option Int
  deriving DecidableEq, Repr

/-- `create_record`'s document construction (lines 154-160).  The dump of
the payload contains the key `expires_in_seconds` — not `ttl` — so
`document.pop("ttl", None)` always yields `None`: the `expires_at` branch
never fires and the `expires_in_seconds` key stays in the stored document.
`document.setdefault("timestamp", now)` never fires either, because the
validated payload always carries a timestamp (already normalised to UTC by
the model and by `_normalize_timestamp`). -/
def create_record (p : RecordCreatePayload) (now : Int) : StoredDoc :=
  let ttl : Option Int := none
  let timestamp : Int := p.timestamp
  let expiresAt : Option Int :=
    match ttl with
    | some t => if t > 0 then some (timestamp + t) else none
    | none => none
  { acronym := p.source
    component := p.component
    payload := p.payload
    metadata := p.metadata
    timestamp := timestamp
    expires_in_seconds := p.expires_in_seconds
    expires_at := expiresAt }

/-! ## The index reconciler (src/app/db/mongo.py lines 153-208)

`_ensure_indexes` is modelled as a pure function from the collection's
`index_information()` metadata to the list of index operations it issues;
the claims about it count creates and drops. -/

/-- One entry of `index_information()`: its key shape and the two optional
properties the reconciler inspects.  The payload of
`partialFilterExpression` is irrelevant (only `is not None` is tested), so
it is kept as an opaque option. -/
structure IndexInfo where
  key : Option (List (String × Int))
  expireAfterSeconds : Option Int
  partialFilterExpression : Option Unit
  deriving DecidableEq, Repr

/-- An index operation issued against the store.  `create_index` is always
called with the plain specification and a name, and never with
`expireAfterSeconds` or `partialFilterExpression` (line 168-169, 173,
189). -/
inductive IndexOp where
  | createIndex (spec : List (String × Int)) (name : String)
  | dropIndex (name : String)
  deriving DecidableEq, Repr

/-- `existing_indexes.get(name)`. -/
def lookupIndex (m : List (String × IndexInfo)) (n : String) : Option IndexInfo :=
  lookupA m n

/-- Lines 166-189 of `_ensure_indexes`: create the named time-field index
when absent; when present with a divergent key shape, or carrying
`expireAfterSeconds` or `partialFilterExpression`, drop it and recreate it
plain.  `ASCENDING = 1`. -/
def ensure_indexes_main (time_field : String) (m : List (String × IndexInfo)) : List IndexOp :=
  let index_name := time_field ++ "_1"
  let index_specification : List (String × Int) := [(time_field, 1)]
  match lookupIndex m index_name with
  | none => [IndexOp.createIndex index_specification index_name]
  | some existing_index =>
    let needs_recreation :=
      (match existing_index.key with
       | none => true
       | some existing_keys => existing_keys != index_specification)
      || existing_index.expireAfterSeconds.isSome
      || existing_index.partialFilterExpression.isSome
    if needs_recreation then
      [IndexOp.dropIndex index_name, IndexOp.createIndex index_specification index_name]
    else []

/-- Lines 191-205 of `_ensure_indexes`: find the first legacy TTL index
among the two historical names and drop it (with no recreation). -/
def ensure_indexes_legacy (m : List (String × IndexInfo)) : List IndexOp :=
  match lookupIndex m "expires_at_ttl" with
  | some _ => [IndexOp.dropIndex "expires_at_ttl"]
  | none =>
    match lookupIndex m "expires_at_1" with
    | some _ => [IndexOp.dropIndex "expires_at_1"]
    | none => []

/-- `MongoDBManager._ensure_indexes` (lines 153-208), on the success path:
the sequence of create/drop calls issued for a given
`index_information()` result. -/
def ensure_indexes (time_field : String) (m : List (String × IndexInfo)) : List IndexOp :=
  ensure_indexes_main time_field m ++ ensure_indexes_legacy m

/-- Effect of one index operation on the `index_information()` metadata:
dropping removes the named entry, creating installs a plain entry under
the given name. -/
def applyIndexOp (m : List (String × IndexInfo)) : IndexOp → List (String × IndexInfo)
  | .dropIndex n => eraseA m n
  | .createIndex spec n => insertA m n { key := some spec, expireAfterSeconds := none, partialFilterExpression := none }

/-- Replaying a whole operation list against the index metadata. -/
def applyIndexOps (m : List (String × IndexInfo)) (ops : List IndexOp) : List (String × IndexInfo) :=
  ops.foldl applyIndexOp m

/-- Number of `drop_index n` calls in a trace. -/
def countDrops (ops : List IndexOp) (n : String) : Nat :=
  (ops.filter (fun op => op == IndexOp.dropIndex n)).length

/-- Number of `create_index` calls carrying the name `n` in a trace. -/
def countCreates (ops : List IndexOp) (n : String) : Nat :=
  (ops.filter (fun op =>
    match op with
    | .createIndex _ name => name == n
    | .dropIndex _ => false)).length

/-! ## The expiration sweeper (src/app/db/mongo.py lines 210-342) -/

/-- `MongoDBManager._should_run_cleanup` (lines 210-233): returns whether
cleanup should run for `key` and the tracker after the call. -/
def should_run_cleanup (tracker : List (String × Int)) (key : String)
    (now : Int) (interval_seconds : Int) : Bool × List (String × Int) :=
  match lookupA tracker key with
  | none => (true, insertA tracker key now)
  | some last_run =>
    let interval := max interval_seconds 0
    if interval ≤ 0 then (true, insertA tracker key now)
    else if now - last_run ≥ interval then (true, insertA tracker key now)
    else (false, tracker)

/-- `MongoDBManager._cleanup_timeseries_collection` (lines 235-274).
Returns the world and state after the call and whether `delete_many` was
invoked.  Note `should_cleanup = interval <= 0 or self._should_run_cleanup(...)`
short-circuits: with a non-positive interval the tracker is not consulted
or stamped.  A `PyMongoError` from `delete_many` is logged and swallowed. -/
def cleanup_timeseries_collection (st : Settings) (now : Int)
    (w : World) (s : MState) (database_name : String) : World × MState × Bool :=
  let interval := st.expiration_cleanup_interval_seconds
  let p :=
    if interval ≤ 0 then (true, s.timeseries_cleanup_tracker)
    else should_run_cleanup s.timeseries_cleanup_tracker database_name now interval
  let s1 : MState := { s with timeseries_cleanup_tracker := p.2 }
  if p.1 then
    ((if (w.databases database_name).tsDeleteFails then w
      else updateDb w database_name
        (fun d => { d with tsDocs := d.tsDocs.filter (fun doc => !expiredLe now doc.expires_at) })),
     s1, true)
  else (w, s1, false)

/-- `MongoDBManager._cleanup_token_collection` (lines 276-342).  Finds
expired token documents (projecting `_id` and `token_hash`), deletes them
by id, then removes each deleted token's hash from the location cache.
Every store failure is logged and swallowed; on a failed `delete_many` the
cache entries are not popped. -/
def cleanup_token_collection (st : Settings) (now : Int)
    (w : World) (s : MState) (database_name : String) : World × MState :=
  let interval := st.expiration_cleanup_interval_seconds
  let p :=
    if interval ≤ 0 then (true, s.token_cleanup_tracker)
    else should_run_cleanup s.token_cleanup_tracker database_name now interval
  let s1 : MState := { s with token_cleanup_tracker := p.2 }
  if p.1 then
    let d := w.databases database_name
    if d.tokenFindExpiredFails then (w, s1)
    else
      let expired_documents := d.tokenDocs.filter (fun doc => expiredLe now doc.expires_at)
      if expired_documents.isEmpty then (w, s1)
      else
        let token_ids := expired_documents.map (·.id)
        if token_ids.isEmpty then (w, s1)
        else if d.tokenDeleteFails then (w, s1)
        else
          let w1 := updateDb w database_name
            (fun d => { d with tokenDocs := d.tokenDocs.filter (fun doc => !token_ids.contains doc.id) })
          let s2 : MState := expired_documents.foldl
            (fun acc doc => { acc with token_hash_cache := eraseA acc.token_hash_cache doc.token_hash })
            s1
          (w1, s2)
  else (w, s1)

/-! ## Database / collection provisioning (src/app/db/mongo.py lines 103-151, 344-406) -/

/-- `MongoDBManager._get_database` (lines 103-118).  Returns the database
handle (its name).  The catalog check (`list_database_names`) is read-only
and only logs; its failure is an uncaught raw `PyMongoError`. -/
def get_database (w : World) (s : MState) (database_name : String) :
    World × MState × Except MErr String :=
  if !s.clientSet then (w, s, .error .connectionError)
  else if s.database_cache.contains database_name then (w, s, .ok database_name)
  else if w.listDatabaseNamesFails then (w, s, .error .pyMongoError)
  else (w, { s with database_cache := s.database_cache ++ [database_name] }, .ok database_name)

/-- `MongoDBManager._ensure_timeseries_collection` (lines 120-151).  A
`CollectionInvalid` from `create_collection` ("already exists despite
initial check") is caught and logged as a warning; the routine then
proceeds as on success.  `_ensure_indexes` failures surface as
`MongoConnectionError` (modelled by the `indexEnsureFails` knob; the index
traces themselves are modelled by `ensure_indexes` above). -/
def ensure_timeseries_collection (st : Settings) (w : World) (s : MState)
    (database_name : String) : World × MState × Except MErr String :=
  let d := w.databases database_name
  if d.listCollectionsFails then (w, s, .error .pyMongoError)
  else
    let w1 :=
      if !d.collections.contains st.mongodb_collection then
        if d.createTsRaisesExists then w
        else updateDb w database_name
          (fun db => { db with collections := db.collections ++ [st.mongodb_collection] })
      else w
    if d.indexEnsureFails then (w1, s, .error .connectionError)
    else (w1, { s with collection_cache := s.collection_cache ++ [database_name] },
          .ok database_name)

/-- `MongoDBManager._ensure_token_collection` (lines 344-378).  Unlike the
time-series twin, the `create_collection` call here (line 363) sits in no
`try` block: a `CollectionInvalid` raised because another caller created
the collection first propagates to the caller.  Only the two
`create_index` calls are wrapped (`PyMongoError` becomes
`MongoConnectionError`). -/
def ensure_token_collection (st : Settings) (w : World) (s : MState)
    (database_name : String) : World × MState × Except MErr String :=
  if s.token_collection_cache.contains database_name then (w, s, .ok database_name)
  else
    let d := w.databases database_name
    if d.listCollectionsFails then (w, s, .error .pyMongoError)
    else if !d.collections.contains st.api_tokens_collection ∧ d.createTokenRaisesExists then
      (w, s, .error .collectionInvalid)
    else
      let w1 :=
        if !d.collections.contains st.api_tokens_collection then
          updateDb w database_name
            (fun db => { db with collections := db.collections ++ [st.api_tokens_collection] })
        else w
      if d.tokenIndexFails then (w1, s, .error .connectionError)
      else (w1, { s with token_collection_cache := s.token_collection_cache ++ [database_name] },
            .ok database_name)

/-- Result of a measurement-collection fetch: post-state plus whether the
sweep issued its delete-expired call. -/
structure TsFetchRes where
  w : World
  s : MState
  r : Except MErr String
  deleteCalled : Bool

/-- `MongoDBManager.get_timeseries_collection_for_database`
(lines 380-392): cached handle or lazy provisioning, then the
measurement sweep. -/
def get_timeseries_collection_for_database (st : Settings) (now : Int)
    (w : World) (s : MState) (database_name : String) : TsFetchRes :=
  if s.collection_cache.contains database_name then
    let c := cleanup_timeseries_collection st now w s database_name
    ⟨c.1, c.2.1, .ok database_name, c.2.2⟩
  else
    match get_database w s database_name with
    | (w1, s1, .error e) => ⟨w1, s1, .error e, false⟩
    | (w1, s1, .ok _) =>
      match ensure_timeseries_collection st w1 s1 database_name with
      | (w2, s2, .error e) => ⟨w2, s2, .error e, false⟩
      | (w2, s2, .ok c) =>
        let cl := cleanup_timeseries_collection st now w2 s2 database_name
        ⟨cl.1, cl.2.1, .ok c, cl.2.2⟩

/-- `MongoDBManager.get_token_collection_for_database` (lines 394-406). -/
def get_token_collection_for_database (st : Settings) (now : Int)
    (w : World) (s : MState) (database_name : String) :
    World × MState × Except MErr String :=
  if s.token_collection_cache.contains database_name then
    let c := cleanup_token_collection st now w s database_name
    (c.1, c.2, .ok database_name)
  else
    match get_database w s database_name with
    | (w1, s1, .error e) => (w1, s1, .error e)
    | (w1, s1, .ok _) =>
      match ensure_token_collection st w1 s1 database_name with
      | (w2, s2, .error e) => (w2, s2, .error e)
      | (w2, s2, .ok c) =>
        let cl := cleanup_token_collection st now w2 s2 database_name
        (cl.1, cl.2, .ok c)

/-! ## Token resolver (src/app/db/mongo.py lines 408-416, 473-547) -/

/-- `MongoDBManager.remember_token_location` (lines 408-411). -/
def remember_token_location (s : MState) (token_hash database_name : String) : MState :=
  { s with token_hash_cache := insertA s.token_hash_cache token_hash database_name }

/-- `MongoDBManager.forget_token_location` (lines 413-416). -/
def forget_token_location (s : MState) (token_hash : String) : MState :=
  { s with token_hash_cache := eraseA s.token_hash_cache token_hash }

/-- `collection.find_one({"token_hash": token_hash})` against one
database's token collection: the raw store outcome (the callers wrap a
`PyMongoError` into `MongoConnectionError`). -/
def find_one_token (w : World) (database_name token_hash : String) :
    Except MErr (Option TokenDoc) :=
  let d := w.databases database_name
  if d.tokenFindOneFails then .error .pyMongoError
  else .ok (d.tokenDocs.find? (fun doc => doc.token_hash == token_hash))

/-- System databases skipped by the cross-database scan (line 513). -/
def system_databases : List String := ["admin", "config", "local"]

/-- Outcome of one of the resolver's scan tiers. -/
inductive ScanOutcome where
  | hit (doc : TokenDoc) (database_name : String)
  | miss
  | fail (e : MErr)
  deriving DecidableEq, Repr

/-- The medium path (lines 501-510): scan every already-open token
collection for the hash.  On a hit the location cache is populated.  A
`find_one` failure is wrapped into `MongoConnectionError` and raised.
Also returns the list of databases whose token collection was queried. -/
def scan_cached_collections (w : World) (s : MState) (token_hash : String) :
    List String → MState × ScanOutcome × List String
  | [] => (s, .miss, [])
  | database_name :: rest =>
    match find_one_token w database_name token_hash with
    | .error _ => (s, .fail .connectionError, [database_name])
    | .ok (some doc) =>
      ({ s with token_hash_cache := insertA s.token_hash_cache token_hash database_name },
       .hit doc database_name, [database_name])
    | .ok none =>
      let r := scan_cached_collections w s token_hash rest
      (r.1, r.2.1, database_name :: r.2.2)

/-- The slow path (lines 512-545): enumerate server databases, skip ones
already cached or system-owned, ensure each remaining one's token
collection exists when the catalog lists it, and probe for the hash.
`list_collection_names` failures are wrapped into `MongoConnectionError`;
failures from `_ensure_token_collection` propagate as raised there;
`find_one` failures are wrapped. -/
def scan_server_databases (st : Settings) (w : World) (s : MState) (token_hash : String) :
    List String → World × MState × ScanOutcome × List String
  | [] => (w, s, .miss, [])
  | database_name :: rest =>
    if s.token_collection_cache.contains database_name
        || system_databases.contains database_name then
      scan_server_databases st w s token_hash rest
    else
      let s1 :=
        if s.database_cache.contains database_name then s
        else { s with database_cache := s.database_cache ++ [database_name] }
      let d := w.databases database_name
      if d.listCollectionsFails then (w, s1, .fail .connectionError, [])
      else if !d.collections.contains st.api_tokens_collection then
        scan_server_databases st w s1 token_hash rest
      else
        match ensure_token_collection st w s1 database_name with
        | (w2, s2, .error e) => (w2, s2, .fail e, [])
        | (w2, s2, .ok _) =>
          match find_one_token w2 database_name token_hash with
          | .error _ => (w2, s2, .fail .connectionError, [database_name])
          | .ok (some doc) =>
            (w2, { s2 with token_hash_cache := insertA s2.token_hash_cache token_hash database_name },
             .hit doc database_name, [database_name])
          | .ok none =>
            let r := scan_server_databases st w2 s2 token_hash rest
            (r.1, r.2.1, r.2.2.1, database_name :: r.2.2.2)

/-- Result of `find_token_document`: post-state, the outcome (a found
document together with its collection's database, or `none` for the
"not found" absence signal), and the trace of databases whose token
collection was probed with `find_one`. -/
structure FindTokenRes where
  w : World
  s : MState
  r : Except MErr (Option (TokenDoc × String))
  queried : List String

/-- The medium and slow paths of `find_token_document` (lines 501-547),
entered after the fast path missed, failed with `MongoConnectionError`, or
was skipped for lack of a cache entry. -/
def find_token_medium_slow (st : Settings) (w : World) (s : MState)
    (token_hash : String) : FindTokenRes :=
  match scan_cached_collections w s token_hash s.token_collection_cache with
  | (s1, .hit doc db, q) => ⟨w, s1, .ok (some (doc, db)), q⟩
  | (s1, .fail e, q) => ⟨w, s1, .error e, q⟩
  | (s1, .miss, q) =>
    if w.listDatabaseNamesFails then ⟨w, s1, .error .pyMongoError, q⟩
    else
      match scan_server_databases st w s1 token_hash w.dbNames with
      | (w2, s2, .hit doc db, q2) => ⟨w2, s2, .ok (some (doc, db)), q ++ q2⟩
      | (w2, s2, .fail e, q2) => ⟨w2, s2, .error e, q ++ q2⟩
      | (w2, s2, .miss, q2) => ⟨w2, s2, .ok none, q ++ q2⟩

/-- `MongoDBManager.find_token_document` (lines 473-547).  Fast path: when
the hash is in the location cache, fetch that database's token collection
(triggering its sweep).  If that fetch raises `MongoConnectionError`, the
cache entry is popped and resolution falls through (lines 487-488); any
other exception propagates.  On a document miss the stale entry is popped
and resolution falls through (line 499). -/
def find_token_document (st : Settings) (now : Int) (w : World) (s : MState)
    (token_hash : String) : FindTokenRes :=
  if !s.clientSet then ⟨w, s, .error .connectionError, []⟩
  else
    match lookupA s.token_hash_cache token_hash with
    | none => find_token_medium_slow st w s token_hash
    | some cached_database =>
      match get_token_collection_for_database st now w s cached_database with
      | (w1, s1, .error .connectionError) =>
        find_token_medium_slow st w1
          { s1 with token_hash_cache := eraseA s1.token_hash_cache token_hash } token_hash
      | (w1, s1, .error e) => ⟨w1, s1, .error e, []⟩
      | (w1, s1, .ok c) =>
        match find_one_token w1 c token_hash with
        | .error _ => ⟨w1, s1, .error .connectionError, [c]⟩
        | .ok (some doc) => ⟨w1, s1, .ok (some (doc, c)), [c]⟩
        | .ok none =>
          let res := find_token_medium_slow st w1
            { s1 with token_hash_cache := eraseA s1.token_hash_cache token_hash } token_hash
          { res with queried := c :: res.queried }

/-! ## Concrete instances used by witnesses and counterexamples -/

/-- A database with no collections, no documents and no store failures. -/
def emptyDb : DatabaseW :=
  { collections := []
    tokenDocs := []
    tsDocs := []
    listCollectionsFails := false
    createTsRaisesExists := false
    createTokenRaisesExists := false
    indexEnsureFails := false
    tokenIndexFails := false
    tokenFindOneFails := false
    tokenFindExpiredFails := false
    tokenDeleteFails := false
    tsDeleteFails := false }

/-! ## C1: connect() after a failed liveness probe -/

/-- C1 (counterexample): starting from the freshly constructed manager, a
`connect()` whose liveness probe times out raises `MongoConnectionError`
as claimed, but — contrary to the claim — leaves the client handle SET
(`self._client` is assigned before the probe and never unset in the
`except` clause), so the next `connect()` hits the early
`if self._client is not None: return` and performs no fresh connection
attempt. -/
theorem connect_counterexample :
    (connect false initialState).error = some MErr.connectionError ∧
    (connect false initialState).s.clientSet = true ∧
    (connect true (connect false initialState).s).attempted = false ∧
    (connect true (connect false initialState).s).s = (connect false initialState).s := by
  decide

/-- C1 (amended): if the liveness probe during `connect()` times out,
`connect()` raises a `ConnectionError` but leaves the client handle set,
so a later call to `connect()` returns immediately as a no-op (no fresh
connection attempt) with the state unchanged. -/
theorem connect_probe_failure_leaves_client_set (s : MState) (probeOk : Bool)
    (h : s.clientSet = false) :
    (connect false s).error = some MErr.connectionError ∧
    (connect false s).s.clientSet = true ∧
    (connect probeOk (connect false s).s).attempted = false ∧
    (connect probeOk (connect false s).s).s = (connect false s).s := by
  simp [connect, h]

/-- Witness for C1's amended theorem at the freshly constructed manager. -/
theorem connect_probe_failure_leaves_client_set_witness :
    initialState.clientSet = false ∧
    ((connect false initialState).error = some MErr.connectionError ∧
     (connect false initialState).s.clientSet = true ∧
     (connect true (connect false initialState).s).attempted = false ∧
     (connect true (connect false initialState).s).s = (connect false initialState).s) :=
  ⟨rfl, connect_probe_failure_leaves_client_set initialState true rfl⟩

/-! ## C2: close() and the caches -/

/-- C2 (counterexample): `close()` on a connected manager whose
measurement sweep tracker holds an entry leaves both sweep-timestamp maps
untouched (lines 549-559 reset only the four handle/location caches), so
the claim that `close()` clears every cache including both per-database
sweep-timestamp maps is false. -/
theorem close_counterexample :
    (close { initialState with
        clientSet := true
        timeseries_cleanup_tracker := [("db1", 5)]
        token_cleanup_tracker := [("db1", 7)] }).timeseries_cleanup_tracker = [("db1", 5)] ∧
    (close { initialState with
        clientSet := true
        timeseries_cleanup_tracker := [("db1", 5)]
        token_cleanup_tracker := [("db1", 7)] }).token_cleanup_tracker = [("db1", 7)] ∧
    ([("db1", 5)] : List (String × Int)) ≠ [] := by
  decide

/-- C2 (amended): `close()` releases the client handle if present and
clears the database-handle, measurement-collection, token-collection and
token_hash→database caches, but leaves both per-database sweep-timestamp
maps untouched; it is idempotent (a second `close()` with no client is a
no-op). -/
theorem close_releases_client_and_clears_handle_caches (s : MState) :
    (close s).clientSet = false ∧
    (s.clientSet = true →
      (close s).database_cache = [] ∧ (close s).collection_cache = [] ∧
      (close s).token_collection_cache = [] ∧ (close s).token_hash_cache = []) ∧
    (close s).timeseries_cleanup_tracker = s.timeseries_cleanup_tracker ∧
    (close s).token_cleanup_tracker = s.token_cleanup_tracker ∧
    (s.clientSet = false → close s = s) := by
  unfold close
  by_cases h : s.clientSet <;> simp [h]

/-- A connected manager state with populated caches and trackers, used to
witness the amended C2 theorem. -/
def closeWitnessState : MState :=
  { initialState with
    clientSet := true
    database_cache := ["db1"]
    timeseries_cleanup_tracker := [("db1", 5)] }

/-- Witness for C2's amended theorem on a connected state with populated
caches. -/
theorem close_releases_client_and_clears_handle_caches_witness :
    ((close closeWitnessState).clientSet = false ∧
     (closeWitnessState.clientSet = true →
      (close closeWitnessState).database_cache = [] ∧
      (close closeWitnessState).collection_cache = [] ∧
      (close closeWitnessState).token_collection_cache = [] ∧
      (close closeWitnessState).token_hash_cache = []) ∧
     (close closeWitnessState).timeseries_cleanup_tracker
        = closeWitnessState.timeseries_cleanup_tracker ∧
     (close closeWitnessState).token_cleanup_tracker
        = closeWitnessState.token_cleanup_tracker ∧
     (closeWitnessState.clientSet = false → close closeWitnessState = closeWitnessState)) :=
  close_releases_client_and_clears_handle_caches closeWitnessState

/-! ## C7: create_record and expires_at -/

/-- C7 (code bug): a record created with `expires_in_seconds = 600` and
`timestamp = 0` is stored WITHOUT any `expires_at` field — and with the
raw `expires_in_seconds` key leaked into the document — because
`create_record` pops the key `"ttl"` while the model serialises the field
as `"expires_in_seconds"`.  The repository's own test
(`tests/test_records_service.py::test_create_record_applies_expiration`)
asserts that the inserted document carries
`expires_at == timestamp + 600s`, so the code contradicts its tests; the
no-TTL half of the claim (key absent entirely) does hold. -/
theorem create_record_ttl_counterexample :
    (create_record ⟨"sensor", none, "p", [], 0, some 600⟩ 0).expires_at = none ∧
    (create_record ⟨"sensor", none, "p", [], 0, some 600⟩ 0).expires_in_seconds = some 600 ∧
    (create_record ⟨"sensor", none, "p", [], 0, none⟩ 0).expires_at = none := by
  decide

/-! ## C3 / C4: the index reconciler -/

theorem countDrops_nil (n : String) : countDrops [] n = 0 := rfl

theorem countCreates_nil (n : String) : countCreates [] n = 0 := rfl

theorem countDrops_cons (op : IndexOp) (ops : List IndexOp) (n : String) :
    countDrops (op :: ops) n
      = (if op = IndexOp.dropIndex n then 1 else 0) + countDrops ops n := by
  by_cases h : op = IndexOp.dropIndex n
  · have hb : (op == IndexOp.dropIndex n) = true := beq_iff_eq.mpr h
    simp [countDrops, List.filter_cons, hb, h, Nat.add_comm]
  · have hb : (op == IndexOp.dropIndex n) = false := beq_eq_false_iff_ne.mpr h
    simp [countDrops, List.filter_cons, hb, h]

theorem countCreates_cons (op : IndexOp) (ops : List IndexOp) (n : String) :
    countCreates (op :: ops) n
      = (match op with
         | .createIndex _ name => if name = n then 1 else 0
         | .dropIndex _ => 0) + countCreates ops n := by
  cases op with
  | dropIndex a => simp [countCreates, List.filter_cons]
  | createIndex spec name =>
    by_cases h : name = n
    · have hb : (name == n) = true := beq_iff_eq.mpr h
      simp [countCreates, List.filter_cons, hb, h, Nat.add_comm]
    · have hb : (name == n) = false := beq_eq_false_iff_ne.mpr h
      simp [countCreates, List.filter_cons, hb, h]

theorem countDrops_append (a b : List IndexOp) (n : String) :
    countDrops (a ++ b) n = countDrops a n + countDrops b n := by
  simp [countDrops, List.filter_append]

theorem countCreates_append (a b : List IndexOp) (n : String) :
    countCreates (a ++ b) n = countCreates a n + countCreates b n := by
  simp [countCreates, List.filter_append]

/-- The legacy pass emits no operation at all for a name that is neither
legacy name. -/
theorem ensure_indexes_legacy_other_counts (m : List (String × IndexInfo)) (n : String)
    (h1 : n ≠ "expires_at_ttl") (h2 : n ≠ "expires_at_1") :
    countDrops (ensure_indexes_legacy m) n = 0 ∧
    countCreates (ensure_indexes_legacy m) n = 0 := by
  unfold ensure_indexes_legacy
  cases lookupIndex m "expires_at_ttl" <;> cases lookupIndex m "expires_at_1" <;>
    simp [countDrops_cons, countDrops_nil, countCreates_cons, countCreates_nil,
      Ne.symm h1, Ne.symm h2]

/-- The legacy pass never creates an index. -/
theorem ensure_indexes_legacy_no_creates (m : List (String × IndexInfo)) (n : String) :
    countCreates (ensure_indexes_legacy m) n = 0 := by
  unfold ensure_indexes_legacy
  cases lookupIndex m "expires_at_ttl" <;> cases lookupIndex m "expires_at_1" <;>
    simp [countCreates_cons, countCreates_nil]

/-- The main pass touches no index name other than the time-field index's
name. -/
theorem ensure_indexes_main_other_counts (tf : String) (m : List (String × IndexInfo))
    (n : String) (h : n ≠ tf ++ "_1") :
    countDrops (ensure_indexes_main tf m) n = 0 ∧
    countCreates (ensure_indexes_main tf m) n = 0 := by
  unfold ensure_indexes_main
  dsimp only
  cases hl : lookupIndex m (tf ++ "_1") with
  | none =>
    simp [countDrops_cons, countDrops_nil, countCreates_cons, countCreates_nil, Ne.symm h]
  | some info =>
    dsimp only
    split <;>
      simp [countDrops_cons, countDrops_nil, countCreates_cons, countCreates_nil, Ne.symm h]

/-- A time-field index carrying `expireAfterSeconds` or
`partialFilterExpression` makes the main pass drop and recreate it plain. -/
theorem ensure_indexes_main_recreates (tf : String) (m : List (String × IndexInfo))
    (info : IndexInfo) (hl : lookupIndex m (tf ++ "_1") = some info)
    (hc : info.expireAfterSeconds ≠ none ∨ info.partialFilterExpression ≠ none) :
    ensure_indexes_main tf m =
      [IndexOp.dropIndex (tf ++ "_1"), IndexOp.createIndex [(tf, 1)] (tf ++ "_1")] := by
  rcases hc with hc | hc
  · obtain ⟨v, hv⟩ := Option.ne_none_iff_exists'.mp hc
    simp [ensure_indexes_main, hl, hv]
  · obtain ⟨v, hv⟩ := Option.ne_none_iff_exists'.mp hc
    simp [ensure_indexes_main, hl, hv]

/-- C3: one reconciler run (a) drops a time-field index that carries
`expireAfterSeconds` and/or `partialFilterExpression` exactly once and
recreates it plain exactly once; (b) drops an existing legacy TTL index
named `expires_at_ttl` exactly once with no recreation; (c) when only the
other historical name `expires_at_1` exists, drops it exactly once with no
recreation.  The two name-disequality hypotheses say that the configured
time field is not itself the legacy expiry field. -/
theorem ensure_indexes_legacy_migration (tf : String) (m : List (String × IndexInfo))
    (hne1 : tf ++ "_1" ≠ "expires_at_ttl") (hne2 : tf ++ "_1" ≠ "expires_at_1") :
    (∀ info, lookupIndex m (tf ++ "_1") = some info →
      (info.expireAfterSeconds ≠ none ∨ info.partialFilterExpression ≠ none) →
      countDrops (ensure_indexes tf m) (tf ++ "_1") = 1 ∧
      IndexOp.createIndex [(tf, 1)] (tf ++ "_1") ∈ ensure_indexes tf m ∧
      countCreates (ensure_indexes tf m) (tf ++ "_1") = 1) ∧
    (∀ info, lookupIndex m "expires_at_ttl" = some info →
      countDrops (ensure_indexes tf m) "expires_at_ttl" = 1 ∧
      countCreates (ensure_indexes tf m) "expires_at_ttl" = 0) ∧
    (lookupIndex m "expires_at_ttl" = none →
      ∀ info, lookupIndex m "expires_at_1" = some info →
      countDrops (ensure_indexes tf m) "expires_at_1" = 1 ∧
      countCreates (ensure_indexes tf m) "expires_at_1" = 0) := by
  refine ⟨?_, ?_, ?_⟩
  · intro info hl hc
    have hmain := ensure_indexes_main_recreates tf m info hl hc
    have hleg := ensure_indexes_legacy_other_counts m (tf ++ "_1") hne1 hne2
    unfold ensure_indexes
    rw [countDrops_append, countCreates_append, hmain, hleg.1, hleg.2]
    refine ⟨by simp [countDrops_cons, countDrops_nil], by simp, ?_⟩
    simp [countCreates_cons, countCreates_nil]
  · intro info hl
    have hmain := ensure_indexes_main_other_counts tf m "expires_at_ttl" (Ne.symm hne1)
    unfold ensure_indexes
    rw [countDrops_append, countCreates_append, hmain.1, hmain.2,
      ensure_indexes_legacy_no_creates]
    unfold ensure_indexes_legacy
    rw [hl]
    simp [countDrops_cons, countDrops_nil]
  · intro hnone info hl
    have hmain := ensure_indexes_main_other_counts tf m "expires_at_1" (Ne.symm hne2)
    unfold ensure_indexes
    rw [countDrops_append, countCreates_append, hmain.1, hmain.2,
      ensure_indexes_legacy_no_creates]
    unfold ensure_indexes_legacy
    rw [hnone, hl]
    simp [countDrops_cons, countDrops_nil]

/-- Index metadata holding a TTL-carrying time-field index and a legacy
`expires_at_ttl` index. -/
def legacyIndexMapA : List (String × IndexInfo) :=
  [("timestamp_1",
    { key := some [("timestamp", 1)], expireAfterSeconds := some 3600,
      partialFilterExpression := some () }),
   ("expires_at_ttl",
    { key := some [("expires_at", 1)], expireAfterSeconds := some 0,
      partialFilterExpression := none })]

/-- Index metadata holding only the legacy `expires_at_1` index. -/
def legacyIndexMapB : List (String × IndexInfo) :=
  [("timestamp_1",
    { key := some [("timestamp", 1)], expireAfterSeconds := none,
      partialFilterExpression := none }),
   ("expires_at_1",
    { key := some [("expires_at", 1)], expireAfterSeconds := some 0,
      partialFilterExpression := none })]

/-- Witness for C3: both legacy shapes evaluated concretely. -/
theorem ensure_indexes_legacy_migration_witness :
    (countDrops (ensure_indexes "timestamp" legacyIndexMapA) "timestamp_1" = 1 ∧
     IndexOp.createIndex [("timestamp", 1)] "timestamp_1"
        ∈ ensure_indexes "timestamp" legacyIndexMapA ∧
     countCreates (ensure_indexes "timestamp" legacyIndexMapA) "timestamp_1" = 1) ∧
    (countDrops (ensure_indexes "timestamp" legacyIndexMapA) "expires_at_ttl" = 1 ∧
     countCreates (ensure_indexes "timestamp" legacyIndexMapA) "expires_at_ttl" = 0) ∧
    (countDrops (ensure_indexes "timestamp" legacyIndexMapB) "expires_at_1" = 1 ∧
     countCreates (ensure_indexes "timestamp" legacyIndexMapB) "expires_at_1" = 0) :=
  ⟨(ensure_indexes_legacy_migration "timestamp" legacyIndexMapA (by decide) (by decide)).1
      { key := some [("timestamp", 1)], expireAfterSeconds := some 3600,
        partialFilterExpression := some () }
      (by decide) (Or.inl (by decide)),
   (ensure_indexes_legacy_migration "timestamp" legacyIndexMapA (by decide) (by decide)).2.1
      { key := some [("expires_at", 1)], expireAfterSeconds := some 0,
        partialFilterExpression := none }
      (by decide),
   (ensure_indexes_legacy_migration "timestamp" legacyIndexMapB (by decide) (by decide)).2.2
      (by decide)
      { key := some [("expires_at", 1)], expireAfterSeconds := some 0,
        partialFilterExpression := none }
      (by decide)⟩

/-- C4: on an already-correctly-configured collection (plain ascending
index on the configured time field under the name `<field>_1`, no
`expireAfterSeconds`, no `partialFilterExpression`, no legacy TTL index)
the reconciler issues zero create and zero drop calls, and therefore also
issues zero calls when run a second time in a row on the resulting index
metadata. -/
theorem ensure_indexes_idempotent (tf : String) (m : List (String × IndexInfo))
    (info : IndexInfo)
    (h1 : lookupIndex m (tf ++ "_1") = some info)
    (h2 : info.key = some [(tf, 1)])
    (h3 : info.expireAfterSeconds = none)
    (h4 : info.partialFilterExpression = none)
    (h5 : lookupIndex m "expires_at_ttl" = none)
    (h6 : lookupIndex m "expires_at_1" = none) :
    ensure_indexes tf m = [] ∧
    ensure_indexes tf (applyIndexOps m (ensure_indexes tf m)) = [] := by
  have hmain : ensure_indexes tf m = [] := by
    unfold ensure_indexes ensure_indexes_main ensure_indexes_legacy
    simp [h1, h2, h3, h4, h5, h6]
  refine ⟨hmain, ?_⟩
  rw [hmain]
  simpa [applyIndexOps] using hmain

/-- Correctly configured index metadata witnessing C4. -/
def correctIndexMap : List (String × IndexInfo) :=
  [("timestamp_1",
    { key := some [("timestamp", 1)], expireAfterSeconds := none,
      partialFilterExpression := none })]

/-- Witness for C4 on concrete, correctly configured metadata. -/
theorem ensure_indexes_idempotent_witness :
    ensure_indexes "timestamp" correctIndexMap = [] ∧
    ensure_indexes "timestamp"
      (applyIndexOps correctIndexMap (ensure_indexes "timestamp" correctIndexMap)) = [] :=
  ensure_indexes_idempotent "timestamp" correctIndexMap
    { key := some [("timestamp", 1)], expireAfterSeconds := none,
      partialFilterExpression := none }
    (by decide) rfl rfl rfl (by decide) (by decide)

/-! ## C5: sweep throttling -/

/-- The measurement sweep leaves every cache except the sweep tracker
untouched, and stamps the tracker exactly as `_should_run_cleanup`
dictates. -/
theorem cleanup_timeseries_mstate (st : Settings) (now : Int) (w : World)
    (s : MState) (db : String) :
    (cleanup_timeseries_collection st now w s db).2.1
      = { s with timeseries_cleanup_tracker :=
            (if st.expiration_cleanup_interval_seconds ≤ 0 then
              (true, s.timeseries_cleanup_tracker)
            else should_run_cleanup s.timeseries_cleanup_tracker db now
              st.expiration_cleanup_interval_seconds).2 } := by
  unfold cleanup_timeseries_collection
  dsimp only
  split
  · split <;> rfl
  · split <;> rfl

/-- C5: with `intervalSeconds = 3600`, two fetches of the same database's
(cached) measurement collection less than `3600s` apart trigger exactly
one delete-expired call, and two fetches more than `3600s` apart trigger
two; `_should_run_cleanup` returns true and stamps `now` when no prior
run is recorded, when `intervalSeconds <= 0`, or when `now - lastRun >=
interval`, and otherwise records nothing and returns false.  (Each fetch
of a measurement collection calls `_cleanup_timeseries_collection` exactly
once, whether or not the handle was cached, so counting delete-expired
calls over two fetches is counting them over the two sweeps.) -/
theorem sweep_throttling (st : Settings) (w : World) (s : MState) (db : String)
    (t1 t2 : Int)
    (hst : st.expiration_cleanup_interval_seconds = 3600)
    (hc : s.collection_cache.contains db = true)
    (htr : lookupA s.timeseries_cleanup_tracker db = none) :
    ((get_timeseries_collection_for_database st t1 w s db).deleteCalled = true ∧
     (t2 - t1 < 3600 →
       (get_timeseries_collection_for_database st t2
         (get_timeseries_collection_for_database st t1 w s db).w
         (get_timeseries_collection_for_database st t1 w s db).s db).deleteCalled = false) ∧
     (3600 < t2 - t1 →
       (get_timeseries_collection_for_database st t2
         (get_timeseries_collection_for_database st t1 w s db).w
         (get_timeseries_collection_for_database st t1 w s db).s db).deleteCalled = true)) ∧
    (∀ (tracker : List (String × Int)) (key : String) (now ival : Int),
      (lookupA tracker key = none →
        should_run_cleanup tracker key now ival = (true, insertA tracker key now)) ∧
      (∀ lr, lookupA tracker key = some lr → ival ≤ 0 →
        should_run_cleanup tracker key now ival = (true, insertA tracker key now)) ∧
      (∀ lr, lookupA tracker key = some lr → 0 < ival → ival ≤ now - lr →
        should_run_cleanup tracker key now ival = (true, insertA tracker key now)) ∧
      (∀ lr, lookupA tracker key = some lr → 0 < ival → now - lr < ival →
        should_run_cleanup tracker key now ival = (false, tracker))) := by
  constructor
  · have hfetch : ∀ (now : Int) (w0 : World) (s0 : MState),
        s0.collection_cache.contains db = true →
        get_timeseries_collection_for_database st now w0 s0 db
          = ⟨(cleanup_timeseries_collection st now w0 s0 db).1,
             (cleanup_timeseries_collection st now w0 s0 db).2.1, .ok db,
             (cleanup_timeseries_collection st now w0 s0 db).2.2⟩ := by
      intro now w0 s0 h0
      unfold get_timeseries_collection_for_database
      rw [if_pos h0]
    have hcall : ∀ (now : Int) (w0 : World) (s0 : MState),
        lookupA s0.timeseries_cleanup_tracker db = none →
        (cleanup_timeseries_collection st now w0 s0 db).2.2 = true ∧
        (cleanup_timeseries_collection st now w0 s0 db).2.1
          = { s0 with timeseries_cleanup_tracker :=
                insertA s0.timeseries_cleanup_tracker db now } := by
      intro now w0 s0 h0
      unfold cleanup_timeseries_collection should_run_cleanup
      rw [h0]
      dsimp only
      rw [if_neg (show ¬ st.expiration_cleanup_interval_seconds ≤ 0 by omega)]
      dsimp only
      constructor
      · rw [if_pos rfl]
      · rw [if_pos rfl]
    have hnot : ∀ (now : Int) (w0 : World) (s0 : MState) (lr : Int),
        lookupA s0.timeseries_cleanup_tracker db = some lr →
        now - lr < 3600 →
        (cleanup_timeseries_collection st now w0 s0 db).2.2 = false := by
      intro now w0 s0 lr h0 hlt
      unfold cleanup_timeseries_collection should_run_cleanup
      rw [h0]
      dsimp only
      rw [if_neg (show ¬ st.expiration_cleanup_interval_seconds ≤ 0 by omega)]
      have hmax : max st.expiration_cleanup_interval_seconds 0 = 3600 := by
        rw [hst]
        exact max_eq_left (by norm_num)
      rw [hmax]
      rw [if_neg (by omega : ¬ (3600:Int) ≤ 0), if_neg (by omega : ¬ now - lr ≥ 3600)]
      rfl
    have hyes : ∀ (now : Int) (w0 : World) (s0 : MState) (lr : Int),
        lookupA s0.timeseries_cleanup_tracker db = some lr →
        3600 ≤ now - lr →
        (cleanup_timeseries_collection st now w0 s0 db).2.2 = true := by
      intro now w0 s0 lr h0 hge
      unfold cleanup_timeseries_collection should_run_cleanup
      rw [h0]
      dsimp only
      rw [if_neg (show ¬ st.expiration_cleanup_interval_seconds ≤ 0 by omega)]
      have hmax : max st.expiration_cleanup_interval_seconds 0 = 3600 := by
        rw [hst]
        exact max_eq_left (by norm_num)
      rw [hmax]
      rw [if_neg (by omega : ¬ (3600:Int) ≤ 0), if_pos (by omega : now - lr ≥ 3600)]
      dsimp only
      rw [if_pos rfl]
    refine ⟨?_, ?_, ?_⟩
    · rw [hfetch t1 w s hc]
      exact (hcall t1 w s htr).1
    · intro hlt
      rw [hfetch t1 w s hc]
      dsimp only
      rw [(hcall t1 w s htr).2]
      rw [hfetch t2 (cleanup_timeseries_collection st t1 w s db).1
        { s with timeseries_cleanup_tracker := insertA s.timeseries_cleanup_tracker db t1 } hc]
      exact hnot t2 _ _ t1 (lookupA_insertA _ _ _) (by omega)
    · intro hgt
      rw [hfetch t1 w s hc]
      dsimp only
      rw [(hcall t1 w s htr).2]
      rw [hfetch t2 (cleanup_timeseries_collection st t1 w s db).1
        { s with timeseries_cleanup_tracker := insertA s.timeseries_cleanup_tracker db t1 } hc]
      exact hyes t2 _ _ t1 (lookupA_insertA _ _ _) (by omega)
  · intro tracker key now ival
    refine ⟨?_, ?_, ?_, ?_⟩
    · intro hnone
      unfold should_run_cleanup
      rw [hnone]
    · intro lr hsome hival
      unfold should_run_cleanup
      rw [hsome]
      dsimp only
      rw [max_eq_right hival, if_pos (le_refl (0:Int))]
    · intro lr hsome hpos hge
      unfold should_run_cleanup
      rw [hsome]
      dsimp only
      rw [max_eq_left (le_of_lt hpos), if_neg (by omega : ¬ ival ≤ 0),
        if_pos (by omega : now - lr ≥ ival)]
    · intro lr hsome hpos hlt
      unfold should_run_cleanup
      rw [hsome]
      dsimp only
      rw [max_eq_left (le_of_lt hpos), if_neg (by omega : ¬ ival ≤ 0),
        if_neg (by omega : ¬ now - lr ≥ ival)]

/-- Witness for C5 at concrete fetch times 0 and 100 (within the
interval) and 0 and 4000 (beyond it), with both halves of the
`_should_run_cleanup` specification exercised on a concrete tracker. -/
theorem sweep_throttling_witness :
    (defaultSettings.expiration_cleanup_interval_seconds = 3600 ∧
     (({ initialState with collection_cache := ["db1"] } : MState).collection_cache.contains
        "db1" = true) ∧
     lookupA ({ initialState with collection_cache := ["db1"] } : MState).timeseries_cleanup_tracker
        "db1" = none) ∧
    ((get_timeseries_collection_for_database defaultSettings 0
        { databases := fun _ => emptyDb, dbNames := [], listDatabaseNamesFails := false }
        { initialState with collection_cache := ["db1"] } "db1").deleteCalled = true ∧
     ((100 : Int) - 0 < 3600 →
       (get_timeseries_collection_for_database defaultSettings 100
         (get_timeseries_collection_for_database defaultSettings 0
           { databases := fun _ => emptyDb, dbNames := [], listDatabaseNamesFails := false }
           { initialState with collection_cache := ["db1"] } "db1").w
         (get_timeseries_collection_for_database defaultSettings 0
           { databases := fun _ => emptyDb, dbNames := [], listDatabaseNamesFails := false }
           { initialState with collection_cache := ["db1"] } "db1").s "db1").deleteCalled
         = false) ∧
     ((3600 : Int) < 100 - 0 →
       (get_timeseries_collection_for_database defaultSettings 100
         (get_timeseries_collection_for_database defaultSettings 0
           { databases := fun _ => emptyDb, dbNames := [], listDatabaseNamesFails := false }
           { initialState with collection_cache := ["db1"] } "db1").w
         (get_timeseries_collection_for_database defaultSettings 0
           { databases := fun _ => emptyDb, dbNames := [], listDatabaseNamesFails := false }
           { initialState with collection_cache := ["db1"] } "db1").s "db1").deleteCalled
         = true)) :=
  ⟨⟨rfl, rfl, rfl⟩,
   (sweep_throttling defaultSettings
      { databases := fun _ => emptyDb, dbNames := [], listDatabaseNamesFails := false }
      { initialState with collection_cache := ["db1"] } "db1" 0 100 rfl rfl rfl).1⟩

/-! ## C8: "already exists" races during collection creation -/

/-- C8 (amended): an "already exists" (`CollectionInvalid`) race during
TIME-SERIES collection creation is caught and treated as success
(lines 142-146), but the same race during TOKEN-collection creation is
not guarded by any `try` (line 363) and propagates to the caller. -/
theorem collection_exists_race (st : Settings) (w : World) (s : MState) (db : String) :
    ((w.databases db).listCollectionsFails = false →
     (w.databases db).indexEnsureFails = false →
     (w.databases db).createTsRaisesExists = true →
     (ensure_timeseries_collection st w s db).2.2 = .ok db) ∧
    (s.token_collection_cache.contains db = false →
     (w.databases db).listCollectionsFails = false →
     (w.databases db).collections.contains st.api_tokens_collection = false →
     (w.databases db).createTokenRaisesExists = true →
     (ensure_token_collection st w s db).2.2 = .error .collectionInvalid) := by
  constructor
  · intro h1 h2 h3
    unfold ensure_timeseries_collection
    simp [h1, h2, h3]
  · intro h1 h2 h3 h4
    have h1' : db ∉ s.token_collection_cache := by simpa using h1
    have h3' : st.api_tokens_collection ∉ (w.databases db).collections := by simpa using h3
    unfold ensure_token_collection
    simp [h1', h2, h3', h4]

/-- A server on which every token-collection creation hits the
"already exists" race. -/
def raceWorld : World :=
  { databases := fun _ =>
      { emptyDb with createTokenRaisesExists := true, createTsRaisesExists := true }
    dbNames := ["db1"]
    listDatabaseNamesFails := false }

/-- C8 (counterexample): the token-collection creation racing with another
creator surfaces `CollectionInvalid` to the caller instead of being
treated as success. -/
theorem token_collection_race_counterexample :
    (ensure_token_collection defaultSettings raceWorld initialState "db1").2.2
      = .error .collectionInvalid := by
  rfl

/-- Witness for C8's amended theorem: with the same racing server, the
time-series creation succeeds while the token creation propagates. -/
theorem collection_exists_race_witness :
    ((raceWorld.databases "db1").listCollectionsFails = false ∧
     (raceWorld.databases "db1").indexEnsureFails = false ∧
     (raceWorld.databases "db1").createTsRaisesExists = true ∧
     initialState.token_collection_cache.contains "db1" = false ∧
     (raceWorld.databases "db1").collections.contains
        defaultSettings.api_tokens_collection = false ∧
     (raceWorld.databases "db1").createTokenRaisesExists = true) ∧
    (ensure_timeseries_collection defaultSettings raceWorld initialState "db1").2.2
        = .ok "db1" ∧
    (ensure_token_collection defaultSettings raceWorld initialState "db1").2.2
        = .error .collectionInvalid :=
  ⟨⟨rfl, rfl, rfl, rfl, rfl, rfl⟩,
   (collection_exists_race defaultSettings raceWorld initialState "db1").1 rfl rfl rfl,
   (collection_exists_race defaultSettings raceWorld initialState "db1").2 rfl rfl rfl rfl⟩

/-! ## C9: sweep failures never propagate -/

/-- `_get_database` succeeds whenever the client is set and the catalog
listing works, whatever the rest of the server looks like. -/
theorem get_database_ok (w : World) (s : MState) (db : String)
    (h1 : s.clientSet = true) (h2 : w.listDatabaseNamesFails = false) :
    ∃ s', get_database w s db = (w, s', .ok db) ∧
      s'.collection_cache = s.collection_cache ∧
      s'.token_collection_cache = s.token_collection_cache ∧
      s'.token_hash_cache = s.token_hash_cache ∧
      s'.timeseries_cleanup_tracker = s.timeseries_cleanup_tracker ∧
      s'.token_cleanup_tracker = s.token_cleanup_tracker := by
  unfold get_database
  by_cases hc : db ∈ s.database_cache
  · refine ⟨s, ?_, rfl, rfl, rfl, rfl, rfl⟩
    simp [h1, hc]
  · refine ⟨{ s with database_cache := s.database_cache ++ [db] }, ?_, rfl, rfl, rfl, rfl, rfl⟩
    simp [h1, hc, h2]

/-- `_ensure_timeseries_collection` succeeds whenever the catalog listing
and the index pass succeed, whatever the sweep knobs say (a
`CollectionInvalid` from the create is swallowed). -/
theorem ensure_timeseries_collection_ok (st : Settings) (w : World) (s : MState)
    (db : String)
    (h1 : (w.databases db).listCollectionsFails = false)
    (h2 : (w.databases db).indexEnsureFails = false) :
    ∃ w2 s2, ensure_timeseries_collection st w s db = (w2, s2, .ok db) ∧
      s2.collection_cache = s.collection_cache ++ [db] ∧
      s2.timeseries_cleanup_tracker = s.timeseries_cleanup_tracker := by
  unfold ensure_timeseries_collection
  by_cases hc : st.mongodb_collection ∈ (w.databases db).collections
  · refine ⟨w, { s with collection_cache := s.collection_cache ++ [db] }, ?_, rfl, rfl⟩
    simp [h1, h2, hc]
  · by_cases hr : (w.databases db).createTsRaisesExists = true
    · refine ⟨w, { s with collection_cache := s.collection_cache ++ [db] }, ?_, rfl, rfl⟩
      simp [h1, h2, hc, hr]
    · refine ⟨updateDb w db
          (fun d => { d with collections := d.collections ++ [st.mongodb_collection] }),
        { s with collection_cache := s.collection_cache ++ [db] }, ?_, rfl, rfl⟩
      simp [h1, h2, hc, hr]

/-- `_ensure_token_collection` succeeds whenever the catalog listing, the
(possible) collection creation and the index creation succeed; it touches
neither the token-hash cache nor any database's documents or failure
knobs. -/
theorem ensure_token_collection_ok (st : Settings) (w : World) (s : MState) (db : String)
    (h1 : (w.databases db).listCollectionsFails = false)
    (h2 : (w.databases db).createTokenRaisesExists = false)
    (h3 : (w.databases db).tokenIndexFails = false) :
    ∃ w2 s2, ensure_token_collection st w s db = (w2, s2, .ok db) ∧
      s2.token_hash_cache = s.token_hash_cache ∧
      s2.clientSet = s.clientSet ∧
      s2.token_cleanup_tracker = s.token_cleanup_tracker ∧
      (∀ n, (w2.databases n).tokenDocs = (w.databases n).tokenDocs ∧
        (w2.databases n).listCollectionsFails = (w.databases n).listCollectionsFails ∧
        (w2.databases n).createTokenRaisesExists = (w.databases n).createTokenRaisesExists ∧
        (w2.databases n).tokenIndexFails = (w.databases n).tokenIndexFails ∧
        (w2.databases n).tokenFindOneFails = (w.databases n).tokenFindOneFails ∧
        (w2.databases n).tokenFindExpiredFails = (w.databases n).tokenFindExpiredFails ∧
        (w2.databases n).tokenDeleteFails = (w.databases n).tokenDeleteFails) ∧
      w2.dbNames = w.dbNames ∧ w2.listDatabaseNamesFails = w.listDatabaseNamesFails := by
  by_cases hcache : db ∈ s.token_collection_cache
  · refine ⟨w, s, ?_, rfl, rfl, rfl, fun n => ⟨rfl, rfl, rfl, rfl, rfl, rfl, rfl⟩, rfl, rfl⟩
    unfold ensure_token_collection
    simp [hcache]
  · by_cases hcol : st.api_tokens_collection ∈ (w.databases db).collections
    · refine ⟨w, { s with token_collection_cache := s.token_collection_cache ++ [db] },
        ?_, rfl, rfl, rfl, fun n => ⟨rfl, rfl, rfl, rfl, rfl, rfl, rfl⟩, rfl, rfl⟩
      unfold ensure_token_collection
      simp [hcache, hcol, h1, h2, h3]
    · refine ⟨updateDb w db
          (fun d => { d with collections := d.collections ++ [st.api_tokens_collection] }),
        { s with token_collection_cache := s.token_collection_cache ++ [db] },
        ?_, rfl, rfl, rfl, ?_, rfl, rfl⟩
      · unfold ensure_token_collection
        simp [hcache, hcol, h1, h2, h3]
      · intro n
        by_cases hn : n = db <;> simp [updateDb_apply, hn]

/-- C9: a fetch of a measurement- or token-collection handle never fails
because of the sweep it triggers.  The world `w` is arbitrary, so in
particular every sweep failure knob (`tsDeleteFails`,
`tokenFindExpiredFails`, `tokenDeleteFails`) may be set: a cached fetch
always returns the handle, and an uncached fetch succeeds whenever the
provisioning steps succeed, regardless of the sweep outcome. -/
theorem sweep_failures_never_propagate (st : Settings) (now : Int) (w : World)
    (s : MState) (db : String) :
    (s.collection_cache.contains db = true →
      (get_timeseries_collection_for_database st now w s db).r = .ok db) ∧
    (s.token_collection_cache.contains db = true →
      (get_token_collection_for_database st now w s db).2.2 = .ok db) ∧
    (s.clientSet = true → w.listDatabaseNamesFails = false →
      (w.databases db).listCollectionsFails = false →
      (w.databases db).indexEnsureFails = false →
      (get_timeseries_collection_for_database st now w s db).r = .ok db) ∧
    (s.clientSet = true → w.listDatabaseNamesFails = false →
      (w.databases db).listCollectionsFails = false →
      (w.databases db).createTokenRaisesExists = false →
      (w.databases db).tokenIndexFails = false →
      (get_token_collection_for_database st now w s db).2.2 = .ok db) := by
  refine ⟨?_, ?_, ?_, ?_⟩
  · intro h
    unfold get_timeseries_collection_for_database
    rw [if_pos h]
  · intro h
    unfold get_token_collection_for_database
    rw [if_pos h]
  · intro h1 h2 h3 h4
    by_cases hcached : s.collection_cache.contains db = true
    · unfold get_timeseries_collection_for_database
      rw [if_pos hcached]
    · obtain ⟨s1, hs1, hcc, -, -, -, -⟩ := get_database_ok w s db h1 h2
      obtain ⟨w2, s2, hw2, -, -⟩ := ensure_timeseries_collection_ok st w s1 db h3 h4
      unfold get_timeseries_collection_for_database
      rw [if_neg hcached, hs1]
      dsimp only
      rw [hw2]
  · intro h1 h2 h3 h4 h5
    by_cases hcached : s.token_collection_cache.contains db = true
    · unfold get_token_collection_for_database
      rw [if_pos hcached]
    · obtain ⟨s1, hs1, -, -, -, -, -⟩ := get_database_ok w s db h1 h2
      obtain ⟨w2, s2, hw2, -, -, -, -, -, -⟩ := ensure_token_collection_ok st w s1 db h3 h4 h5
      unfold get_token_collection_for_database
      rw [if_neg hcached, hs1]
      dsimp only
      rw [hw2]

/-- Witness for C9 on a server whose sweep operations all fail. -/
def sweepFailWorld : World :=
  { databases := fun _ =>
      { emptyDb with
        tsDeleteFails := true
        tokenFindExpiredFails := true
        tokenDeleteFails := true
        tokenDocs := [{ id := 1, token_hash := "h1", expires_at := some (-10) }]
        tsDocs := [{ id := 1, expires_at := some (-10) }] }
    dbNames := ["db1"]
    listDatabaseNamesFails := false }

/-- A manager state with both collections of `db1` cached. -/
def sweepFailState : MState :=
  { initialState with
    clientSet := true
    collection_cache := ["db1"]
    token_collection_cache := ["db1"] }

/-- Witness for C9: all four conjuncts evaluated on the failing-sweeps
server (cached fetches for `db1`, uncached ones for `db2`). -/
theorem sweep_failures_never_propagate_witness :
    (sweepFailState.collection_cache.contains "db1" = true ∧
     sweepFailState.token_collection_cache.contains "db1" = true ∧
     sweepFailState.clientSet = true ∧
     sweepFailWorld.listDatabaseNamesFails = false) ∧
    ((get_timeseries_collection_for_database defaultSettings 0 sweepFailWorld
        sweepFailState "db1").r = .ok "db1" ∧
     (get_token_collection_for_database defaultSettings 0 sweepFailWorld
        sweepFailState "db1").2.2 = .ok "db1" ∧
     (get_timeseries_collection_for_database defaultSettings 0 sweepFailWorld
        sweepFailState "db2").r = .ok "db2" ∧
     (get_token_collection_for_database defaultSettings 0 sweepFailWorld
        sweepFailState "db2").2.2 = .ok "db2") :=
  ⟨⟨rfl, rfl, rfl, rfl⟩,
   (sweep_failures_never_propagate defaultSettings 0 sweepFailWorld sweepFailState "db1").1 rfl,
   (sweep_failures_never_propagate defaultSettings 0 sweepFailWorld sweepFailState "db1").2.1 rfl,
   (sweep_failures_never_propagate defaultSettings 0 sweepFailWorld sweepFailState
      "db2").2.2.1 rfl rfl rfl rfl,
   (sweep_failures_never_propagate defaultSettings 0 sweepFailWorld sweepFailState
      "db2").2.2.2 rfl rfl rfl rfl rfl⟩

/-! ## C10: fast-path ConnectionError falls through -/

/-- C10: if the fast path's fetch of the cached database's token
collection fails with `MongoConnectionError`, `find_token_document` evicts
the stale location-cache entry and continues with the medium and slow
paths on the post-fetch state instead of propagating the error
(mongo.py lines 483-499). -/
theorem find_token_fast_path_falls_through (st : Settings) (now : Int) (w : World)
    (s : MState) (h d : String) (w1 : World) (s1 : MState)
    (hclient : s.clientSet = true)
    (hcache : lookupA s.token_hash_cache h = some d)
    (hfail : get_token_collection_for_database st now w s d
      = (w1, s1, .error .connectionError)) :
    find_token_document st now w s h =
      find_token_medium_slow st w1
        { s1 with token_hash_cache := eraseA s1.token_hash_cache h } h ∧
    lookupA (eraseA s1.token_hash_cache h) h = none := by
  constructor
  · unfold find_token_document
    rw [if_neg (show ¬((!s.clientSet) = true) by rw [hclient]; decide)]
    rw [hcache]
    dsimp only
    rw [hfail]
  · exact lookupA_eraseA s1.token_hash_cache h

/-- Manager state for the C10 witness: connected, with a (stale) location
cache entry pointing the hash at `db1`. -/
def c10State : MState :=
  { initialState with clientSet := true, token_hash_cache := [("h1", "db1")] }

/-- The state after the C10 witness's fast-path fetch cached the `db1`
database handle. -/
def c10State1 : MState :=
  { c10State with database_cache := ["db1"] }

/-- Server for the C10 witness: `db1` has a token collection, but ensuring
its indexes fails, so the fast-path fetch raises `MongoConnectionError`. -/
def c10World : World :=
  { databases := fun _ => { emptyDb with collections := ["api_tokens"], tokenIndexFails := true }
    dbNames := ["db1"]
    listDatabaseNamesFails := false }

/-- Witness for C10 with the failing fetch evaluated concretely. -/
theorem find_token_fast_path_falls_through_witness :
    (c10State.clientSet = true ∧
     lookupA c10State.token_hash_cache "h1" = some "db1" ∧
     get_token_collection_for_database defaultSettings 0 c10World c10State "db1"
       = (c10World, c10State1, .error .connectionError)) ∧
    (find_token_document defaultSettings 0 c10World c10State "h1" =
      find_token_medium_slow defaultSettings c10World
        { c10State1 with token_hash_cache := eraseA c10State1.token_hash_cache "h1" } "h1" ∧
     lookupA (eraseA c10State1.token_hash_cache "h1") "h1" = none) :=
  ⟨⟨rfl, rfl, rfl⟩,
   find_token_fast_path_falls_through defaultSettings 0 c10World c10State "h1" "db1"
     c10World c10State1 rfl rfl rfl⟩

/-! ## C6: token resolution fast path -/

/-- No store failure knob relevant to token resolution is set. -/
def dbOk (d : DatabaseW) : Prop :=
  d.listCollectionsFails = false ∧ d.createTokenRaisesExists = false ∧
  d.tokenIndexFails = false ∧ d.tokenFindOneFails = false

/-- No document of the database's token collection carries the hash. -/
def noHash (h : String) (d : DatabaseW) : Prop :=
  ∀ doc ∈ d.tokenDocs, doc.token_hash ≠ h

/-- A server on which every resolution-relevant store call succeeds and no
database holds a token document with hash `h`. -/
def tokenGood (h : String) (w : World) : Prop :=
  w.listDatabaseNamesFails = false ∧ ∀ n, dbOk (w.databases n) ∧ noHash h (w.databases n)

theorem find_one_token_none (w : World) (db h : String) (hg : tokenGood h w) :
    find_one_token w db h = .ok none := by
  obtain ⟨-, hdb⟩ := hg
  obtain ⟨⟨-, -, -, hknob⟩, hnh⟩ := hdb db
  unfold find_one_token
  dsimp only
  rw [hknob]
  rw [if_neg (by decide : ¬(false = true))]
  rw [Except.ok.injEq, List.find?_eq_none]
  intro doc hdoc
  simp [hnh doc hdoc]

/-- The token sweep: the world keeps all collection lists and failure
knobs, its surviving documents are a subset of the old ones, and the
manager state keeps everything except the token sweep tracker and the
token-hash cache. -/
theorem cleanup_token_collection_props (st : Settings) (now : Int) (w : World)
    (s : MState) (db : String) :
    (∀ n,
      ((cleanup_token_collection st now w s db).1.databases n).collections
        = (w.databases n).collections ∧
      ((cleanup_token_collection st now w s db).1.databases n).listCollectionsFails
        = (w.databases n).listCollectionsFails ∧
      ((cleanup_token_collection st now w s db).1.databases n).createTokenRaisesExists
        = (w.databases n).createTokenRaisesExists ∧
      ((cleanup_token_collection st now w s db).1.databases n).tokenIndexFails
        = (w.databases n).tokenIndexFails ∧
      ((cleanup_token_collection st now w s db).1.databases n).tokenFindOneFails
        = (w.databases n).tokenFindOneFails ∧
      (∀ doc, doc ∈ ((cleanup_token_collection st now w s db).1.databases n).tokenDocs →
        doc ∈ (w.databases n).tokenDocs)) ∧
    (cleanup_token_collection st now w s db).1.dbNames = w.dbNames ∧
    (cleanup_token_collection st now w s db).1.listDatabaseNamesFails
      = w.listDatabaseNamesFails ∧
    (cleanup_token_collection st now w s db).2.clientSet = s.clientSet ∧
    (cleanup_token_collection st now w s db).2.database_cache = s.database_cache ∧
    (cleanup_token_collection st now w s db).2.collection_cache = s.collection_cache ∧
    (cleanup_token_collection st now w s db).2.token_collection_cache
      = s.token_collection_cache := by
  have hfold : ∀ (l : List TokenDoc) (s0 : MState),
      (l.foldl (fun acc doc =>
        { acc with token_hash_cache := eraseA acc.token_hash_cache doc.token_hash }) s0).clientSet
        = s0.clientSet ∧
      (l.foldl (fun acc doc =>
        { acc with token_hash_cache := eraseA acc.token_hash_cache doc.token_hash }) s0).database_cache
        = s0.database_cache ∧
      (l.foldl (fun acc doc =>
        { acc with token_hash_cache := eraseA acc.token_hash_cache doc.token_hash }) s0).collection_cache
        = s0.collection_cache ∧
      (l.foldl (fun acc doc =>
        { acc with token_hash_cache := eraseA acc.token_hash_cache doc.token_hash }) s0).token_collection_cache
        = s0.token_collection_cache := by
    intro l
    induction l with
    | nil => exact fun s0 => ⟨rfl, rfl, rfl, rfl⟩
    | cons a l ih => exact fun s0 => ih _
  unfold cleanup_token_collection
  dsimp only
  repeat' split
  all_goals
    first
      | exact ⟨fun n => ⟨rfl, rfl, rfl, rfl, rfl, fun doc hd => hd⟩, rfl, rfl, rfl, rfl, rfl, rfl⟩
      | · refine ⟨fun n => ?_, rfl, rfl, (hfold _ _).1, (hfold _ _).2.1,
            (hfold _ _).2.2.1, (hfold _ _).2.2.2⟩
          by_cases hn : n = db
          · rw [hn, updateDb_apply, if_pos rfl]
            exact ⟨rfl, rfl, rfl, rfl, rfl, fun doc hd => (List.mem_filter.mp hd).1⟩
          · rw [updateDb_apply, if_neg hn]
            exact ⟨rfl, rfl, rfl, rfl, rfl, fun doc hd => hd⟩

/-- An unexpired token document survives the sweep when `_id`s are unique
(as they are in MongoDB): the sweep deletes only ids of expired
documents. -/
theorem cleanup_token_collection_keeps (st : Settings) (now : Int) (w : World)
    (s : MState) (db : String) (doc : TokenDoc)
    (hmem : doc ∈ (w.databases db).tokenDocs)
    (hunexp : expiredLe now doc.expires_at = false)
    (hpw : (w.databases db).tokenDocs.Pairwise (fun a b => a.id ≠ b.id)) :
    doc ∈ ((cleanup_token_collection st now w s db).1.databases db).tokenDocs := by
  unfold cleanup_token_collection
  dsimp only
  repeat' split
  all_goals try exact hmem
  all_goals rw [updateDb_apply, if_pos rfl]
  all_goals refine List.mem_filter.mpr ⟨hmem, ?_⟩
  all_goals simp only [Bool.not_eq_true']
  all_goals rw [List.contains_eq_any_beq]
  all_goals simp only [List.any_eq_false]
  all_goals intro i hi
  all_goals obtain ⟨e, he, hei⟩ := List.mem_map.mp hi
  all_goals obtain ⟨hemem, heexp⟩ := List.mem_filter.mp he
  all_goals
    have hne : e ≠ doc := by
      intro hcon
      rw [hcon] at heexp
      rw [hunexp] at heexp
      exact Bool.false_ne_true heexp
  all_goals
    have hid : e.id ≠ doc.id :=
      List.Pairwise.forall (by intro a b hab hc; exact hab hc.symm) hpw hemem hmem hne
  all_goals exact fun hc => hid (hei.trans (eq_of_beq hc).symm)

/-- `_ensure_token_collection` preserves `tokenGood` and the token-hash
cache. -/
theorem ensure_token_collection_good (st : Settings) (w : World) (s : MState)
    (db h : String) (hg : tokenGood h w) :
    ∃ w2 s2, ensure_token_collection st w s db = (w2, s2, .ok db) ∧ tokenGood h w2 ∧
      s2.token_hash_cache = s.token_hash_cache := by
  obtain ⟨hl, hda⟩ := hg
  obtain ⟨⟨h1, h2, h3, -⟩, -⟩ := hda db
  obtain ⟨w2, s2, heq, hhash, -, -, hn, -, hfl⟩ := ensure_token_collection_ok st w s db h1 h2 h3
  refine ⟨w2, s2, heq, ⟨by rw [hfl]; exact hl, fun n => ?_⟩, hhash⟩
  obtain ⟨hdocs, ha, hb, hc, hd, -, -⟩ := hn n
  obtain ⟨⟨g1, g2, g3, g4⟩, g5⟩ := hda n
  refine ⟨⟨by rw [ha]; exact g1, by rw [hb]; exact g2,
    by rw [hc]; exact g3, by rw [hd]; exact g4⟩, fun doc hdoc => ?_⟩
  rw [hdocs] at hdoc
  exact g5 doc hdoc

/-- The token sweep preserves `tokenGood`. -/
theorem cleanup_token_collection_good (st : Settings) (now : Int) (w : World)
    (s : MState) (db h : String) (hg : tokenGood h w) :
    tokenGood h (cleanup_token_collection st now w s db).1 := by
  obtain ⟨hp, -, hfl, -, -, -, -⟩ := cleanup_token_collection_props st now w s db
  obtain ⟨hgl, hgd⟩ := hg
  refine ⟨by rw [hfl]; exact hgl, fun n => ?_⟩
  obtain ⟨-, ha, hb, hc, hd, hdocs⟩ := hp n
  obtain ⟨⟨g1, g2, g3, g4⟩, g5⟩ := hgd n
  exact ⟨⟨by rw [ha]; exact g1, by rw [hb]; exact g2, by rw [hc]; exact g3,
    by rw [hd]; exact g4⟩, fun doc hdoc => g5 doc (hdocs doc hdoc)⟩

/-- Fetching a token collection on a good server succeeds and keeps the
server good. -/
theorem get_token_collection_for_database_good (st : Settings) (now : Int) (w : World)
    (s : MState) (db h : String) (hclient : s.clientSet = true) (hg : tokenGood h w) :
    ∃ w1 s1, get_token_collection_for_database st now w s db = (w1, s1, .ok db) ∧
      tokenGood h w1 := by
  by_cases hc : s.token_collection_cache.contains db = true
  · refine ⟨(cleanup_token_collection st now w s db).1,
      (cleanup_token_collection st now w s db).2, ?_,
      cleanup_token_collection_good st now w s db h hg⟩
    unfold get_token_collection_for_database
    rw [if_pos hc]
  · obtain ⟨s1, hs1, -, -, -, -, -⟩ := get_database_ok w s db hclient hg.1
    obtain ⟨w2, s2, heq, hg2, -⟩ := ensure_token_collection_good st w s1 db h hg
    refine ⟨(cleanup_token_collection st now w2 s2 db).1,
      (cleanup_token_collection st now w2 s2 db).2, ?_,
      cleanup_token_collection_good st now w2 s2 db h hg2⟩
    unfold get_token_collection_for_database
    rw [if_neg hc, hs1]
    dsimp only
    rw [heq]

/-- The medium path misses every cached collection on a good server. -/
theorem scan_cached_collections_none (w : World) (h : String) (hg : tokenGood h w) :
    ∀ (l : List String) (s : MState), scan_cached_collections w s h l = (s, .miss, l) := by
  intro l
  induction l with
  | nil => intro s; rfl
  | cons db rest ih =>
    intro s
    unfold scan_cached_collections
    rw [find_one_token_none w db h hg]
    dsimp only
    rw [ih s]

/-- The slow path misses every server database on a good server, keeping
the token-hash cache and goodness intact. -/
theorem scan_server_databases_none (st : Settings) (h : String) :
    ∀ (l : List String) (w : World) (s : MState), tokenGood h w →
      ∃ w2 s2 q, scan_server_databases st w s h l = (w2, s2, .miss, q) ∧
        s2.token_hash_cache = s.token_hash_cache ∧ tokenGood h w2 := by
  intro l
  induction l with
  | nil => exact fun w s hg => ⟨w, s, [], rfl, rfl, hg⟩
  | cons db rest ih =>
    intro w s hg
    unfold scan_server_databases
    by_cases hskip : (s.token_collection_cache.contains db
        || system_databases.contains db) = true
    · rw [if_pos hskip]
      exact ih w s hg
    · rw [if_neg hskip]
      dsimp only
      obtain ⟨⟨g1, -, -, -⟩, -⟩ := hg.2 db
      rw [g1, if_neg (by decide : ¬(false = true))]
      by_cases hdbc : s.database_cache.contains db = true
      · rw [if_pos hdbc]
        by_cases hcol : (w.databases db).collections.contains st.api_tokens_collection = true
        · rw [if_neg (show ¬((!(w.databases db).collections.contains
              st.api_tokens_collection) = true) by rw [hcol]; decide)]
          obtain ⟨w2, s2, heq, hg2, hhash2⟩ := ensure_token_collection_good st w s db h hg
          rw [heq]
          dsimp only
          rw [find_one_token_none w2 db h hg2]
          dsimp only
          obtain ⟨w3, s3, q, hrec, hhash3, hg3⟩ := ih w2 s2 hg2
          rw [hrec]
          exact ⟨w3, s3, db :: q, rfl, by rw [hhash3, hhash2], hg3⟩
        · rw [if_pos (show (!(w.databases db).collections.contains
              st.api_tokens_collection) = true by
            have hcol' : (w.databases db).collections.contains st.api_tokens_collection
                = false := by simpa using hcol
            rw [hcol']
            rfl)]
          exact ih w s hg
      · rw [if_neg hdbc]
        by_cases hcol : (w.databases db).collections.contains st.api_tokens_collection = true
        · rw [if_neg (show ¬((!(w.databases db).collections.contains
              st.api_tokens_collection) = true) by rw [hcol]; decide)]
          obtain ⟨w2, s2, heq, hg2, hhash2⟩ := ensure_token_collection_good st w
            { s with database_cache := s.database_cache ++ [db] } db h hg
          rw [heq]
          dsimp only
          rw [find_one_token_none w2 db h hg2]
          dsimp only
          obtain ⟨w3, s3, q, hrec, hhash3, hg3⟩ := ih w2 s2 hg2
          rw [hrec]
          exact ⟨w3, s3, db :: q, rfl, by rw [hhash3, hhash2], hg3⟩
        · rw [if_pos (show (!(w.databases db).collections.contains
              st.api_tokens_collection) = true by
            have hcol' : (w.databases db).collections.contains st.api_tokens_collection
                = false := by simpa using hcol
            rw [hcol']
            rfl)]
          exact ih w { s with database_cache := s.database_cache ++ [db] } hg

/-- The medium and slow paths together report "not found" on a good
server, leaving the token-hash cache untouched. -/
theorem find_token_medium_slow_none (st : Settings) (w : World) (s : MState)
    (h : String) (hg : tokenGood h w) :
    ∃ w2 s2 q, find_token_medium_slow st w s h = ⟨w2, s2, .ok none, q⟩ ∧
      s2.token_hash_cache = s.token_hash_cache := by
  unfold find_token_medium_slow
  rw [scan_cached_collections_none w h hg s.token_collection_cache s]
  dsimp only
  rw [if_neg (show ¬(w.listDatabaseNamesFails = true) by rw [hg.1]; decide)]
  obtain ⟨w2, s2, q, hrec, hhash, -⟩ := scan_server_databases_none st h w.dbNames w s hg
  rw [hrec]
  exact ⟨w2, s2, s.token_collection_cache ++ q, rfl, hhash⟩

/-- C6: (fast path) after `remember_token_location(h, db)`, a
`find_token_document(h)` resolves by querying only `db`'s token
collection — the trace of probed databases is exactly `[db]` — and
returns a document with the hash; (miss path) when no database holds a
token with hash `h`, `find_token_document(h)` returns the "not found"
absence signal and the location-cache entry for `h` is gone afterwards. -/
theorem token_resolution_fast_path (st : Settings) (now : Int) (w : World) (s : MState)
    (h db : String) :
    (s.clientSet = true →
     s.token_collection_cache.contains db = true →
     (w.databases db).tokenFindOneFails = false →
     (w.databases db).tokenDocs.Pairwise (fun a b => a.id ≠ b.id) →
     (∃ doc ∈ (w.databases db).tokenDocs,
        doc.token_hash = h ∧ expiredLe now doc.expires_at = false) →
     ((find_token_document st now w (remember_token_location s h db) h).queried = [db] ∧
      ∃ dfound, (find_token_document st now w (remember_token_location s h db) h).r
          = .ok (some (dfound, db)) ∧ dfound.token_hash = h)) ∧
    (s.clientSet = true → tokenGood h w →
     (find_token_document st now w s h).r = .ok none ∧
     lookupA (find_token_document st now w s h).s.token_hash_cache h = none) := by
  constructor
  · intro hclient hcached hknob hpw hdoc
    obtain ⟨doc, hmem, hhash, hunexp⟩ := hdoc
    have hget : get_token_collection_for_database st now w
        (remember_token_location s h db) db
        = ((cleanup_token_collection st now w (remember_token_location s h db) db).1,
           (cleanup_token_collection st now w (remember_token_location s h db) db).2,
           .ok db) := by
      unfold get_token_collection_for_database
      rw [if_pos (show (remember_token_location s h db).token_collection_cache.contains db
        = true from hcached)]
    have hknob1 : ((cleanup_token_collection st now w
        (remember_token_location s h db) db).1.databases db).tokenFindOneFails = false := by
      have := ((cleanup_token_collection_props st now w
        (remember_token_location s h db) db).1 db).2.2.2.2.1
      rw [this, hknob]
    have hmem1 := cleanup_token_collection_keeps st now w
      (remember_token_location s h db) db doc hmem hunexp hpw
    have hfind : ∃ dfound, find_one_token (cleanup_token_collection st now w
        (remember_token_location s h db) db).1 db h = .ok (some dfound) ∧
        dfound.token_hash = h := by
      unfold find_one_token
      dsimp only
      rw [hknob1, if_neg (by decide : ¬(false = true))]
      have hsome : (((cleanup_token_collection st now w
          (remember_token_location s h db) db).1.databases db).tokenDocs.find?
          (fun d0 => d0.token_hash == h)).isSome := by
        rw [List.find?_isSome]
        exact ⟨doc, hmem1, by rw [hhash]; exact beq_self_eq_true h⟩
      obtain ⟨dfound, hdf⟩ := Option.isSome_iff_exists.mp hsome
      have hpred := List.find?_some hdf
      exact ⟨dfound, by rw [hdf], eq_of_beq (by simpa using hpred)⟩
    obtain ⟨dfound, hdf, hdfh⟩ := hfind
    have hres : find_token_document st now w (remember_token_location s h db) h
        = ⟨(cleanup_token_collection st now w (remember_token_location s h db) db).1,
           (cleanup_token_collection st now w (remember_token_location s h db) db).2,
           .ok (some (dfound, db)), [db]⟩ := by
      unfold find_token_document
      rw [if_neg (show ¬((!(remember_token_location s h db).clientSet) = true) by
        rw [show (remember_token_location s h db).clientSet = true from hclient]; decide)]
      rw [show lookupA (remember_token_location s h db).token_hash_cache h = some db
        from lookupA_insertA s.token_hash_cache h db]
      dsimp only
      rw [hget]
      dsimp only
      rw [hdf]
    rw [hres]
    exact ⟨rfl, dfound, rfl, hdfh⟩
  · intro hclient hg
    rcases hlook : lookupA s.token_hash_cache h with _ | d
    · have hres : find_token_document st now w s h = find_token_medium_slow st w s h := by
        unfold find_token_document
        rw [if_neg (show ¬((!s.clientSet) = true) by rw [hclient]; decide), hlook]
      obtain ⟨w2, s2, q, hms, hhash⟩ := find_token_medium_slow_none st w s h hg
      rw [hres, hms]
      refine ⟨rfl, ?_⟩
      dsimp only
      rw [hhash]
      exact hlook
    · obtain ⟨w1, s1, hget, hg1⟩ := get_token_collection_for_database_good st now w s d h
        hclient hg
      have hfo : find_one_token w1 d h = .ok none := find_one_token_none w1 d h hg1
      obtain ⟨w2, s2, q, hms, hhash⟩ := find_token_medium_slow_none st w1
        { s1 with token_hash_cache := eraseA s1.token_hash_cache h } h hg1
      have hres : find_token_document st now w s h = ⟨w2, s2, .ok none, d :: q⟩ := by
        unfold find_token_document
        rw [if_neg (show ¬((!s.clientSet) = true) by rw [hclient]; decide), hlook]
        dsimp only
        rw [hget]
        dsimp only
        rw [hfo]
        dsimp only
        rw [hms]
      rw [hres]
      refine ⟨rfl, ?_⟩
      dsimp only
      rw [hhash]
      exact lookupA_eraseA s1.token_hash_cache h

/-- Server for the C6 witness: only `db1` exists and holds one live token
document with hash `h1`. -/
def c6World : World :=
  { databases := fun n =>
      if n = "db1" then
        { emptyDb with
          collections := ["api_tokens"]
          tokenDocs := [{ id := 1, token_hash := "h1", expires_at := none }] }
      else emptyDb
    dbNames := ["db1"]
    listDatabaseNamesFails := false }

/-- Manager state for the C6 witness: connected, with `db1`'s token
collection cached. -/
def c6State : MState :=
  { initialState with clientSet := true, token_collection_cache := ["db1"] }

/-- Witness for C6: the fast path on hash `h1` (remembered at `db1`)
queries only `db1`; a lookup of the absent hash `h2` reports not-found
with no cache entry left. -/
theorem token_resolution_fast_path_witness :
    (c6State.clientSet = true ∧
     c6State.token_collection_cache.contains "db1" = true ∧
     (c6World.databases "db1").tokenFindOneFails = false ∧
     (c6World.databases "db1").tokenDocs.Pairwise (fun a b => a.id ≠ b.id) ∧
     (∃ doc ∈ (c6World.databases "db1").tokenDocs,
        doc.token_hash = "h1" ∧ expiredLe 0 doc.expires_at = false) ∧
     tokenGood "h2" c6World) ∧
    (((find_token_document defaultSettings 0 c6World
         (remember_token_location c6State "h1" "db1") "h1").queried = ["db1"] ∧
      ∃ dfound, (find_token_document defaultSettings 0 c6World
          (remember_token_location c6State "h1" "db1") "h1").r
          = .ok (some (dfound, "db1")) ∧ dfound.token_hash = "h1") ∧
     ((find_token_document defaultSettings 0 c6World c6State "h2").r = .ok none ∧
      lookupA (find_token_document defaultSettings 0 c6World
        c6State "h2").s.token_hash_cache "h2" = none)) := by
  have hknob : (c6World.databases "db1").tokenFindOneFails = false := by decide
  have hpw : (c6World.databases "db1").tokenDocs.Pairwise (fun a b => a.id ≠ b.id) := by
    have : (c6World.databases "db1").tokenDocs
        = [{ id := 1, token_hash := "h1", expires_at := none }] := by decide
    rw [this]
    exact List.pairwise_singleton _ _
  have hdoc : ∃ doc ∈ (c6World.databases "db1").tokenDocs,
      doc.token_hash = "h1" ∧ expiredLe 0 doc.expires_at = false :=
    ⟨{ id := 1, token_hash := "h1", expires_at := none }, by decide, rfl, rfl⟩
  have hg : tokenGood "h2" c6World := by
    refine ⟨rfl, fun n => ?_⟩
    by_cases hn : n = "db1"
    · subst hn
      exact ⟨⟨by decide, by decide, by decide, by decide⟩, by unfold noHash; decide⟩
    · have hdb : c6World.databases n = emptyDb := by
        simp [c6World, hn]
      rw [hdb]
      exact ⟨⟨rfl, rfl, rfl, rfl⟩, by unfold noHash; decide⟩
  exact ⟨⟨rfl, rfl, hknob, hpw, hdoc, hg⟩,
    (token_resolution_fast_path defaultSettings 0 c6World c6State "h1" "db1").1
      rfl rfl hknob hpw hdoc,
    (token_resolution_fast_path defaultSettings 0 c6World c6State "h2" "db1").2
      rfl hg⟩

end MongoCrud
